import Mathlib

/-!
Verification development for the Liebert GXE series UPS serial driver
(src/drivers/liebert-gxe.c and src/drivers/liebert-gxe.h).

Buffers are modelled as lists of byte values (Nat, 0..255).  All bytes the
driver actually sends or receives are ASCII (below 0x80), where signed and
unsigned char agree, so summing them as Nat is faithful to the C code.
-/

/-- ASCII codes of a string literal, used to write byte buffers readably. -/
def ascii (s : String) : List Nat := s.data.map Char.toNat

/-- Uppercase hex digit character for a nibble, as printf %X emits it. -/
def hexDigitChar (n : Nat) : Nat := if n < 10 then 48 + n else 55 + n

/-- The four hex characters printf "%04X" emits for a value below 0x10000. -/
def hex4 (v : Nat) : List Nat :=
  [hexDigitChar (v / 4096 % 16), hexDigitChar (v / 256 % 16),
   hexDigitChar (v / 16 % 16), hexDigitChar (v % 16)]

/-- printf "%04X" for values up to 0xFFFFF: four digits zero-padded, five
when the value overflows four hex digits (as happens for 0x10000). -/
def fmt04X (v : Nat) : List Nat :=
  if v < 65536 then hex4 v else hexDigitChar (v / 65536 % 16) :: hex4 (v % 65536)

/-- Characters strtol skips as leading whitespace. -/
def isStrtolSpace (c : Nat) : Bool := c == 32 || (9 ≤ c && c ≤ 13)

/-- Value of an ASCII hex digit character, none for any other byte. -/
def hexDigit? (c : Nat) : Option Nat :=
  if 48 ≤ c ∧ c ≤ 57 then some (c - 48)
  else if 65 ≤ c ∧ c ≤ 70 then some (c - 55)
  else if 97 ≤ c ∧ c ≤ 102 then some (c - 87)
  else none

/-- Accumulate leading hex digit characters, stopping at the first byte that
is not a hex digit (this includes a NUL byte, matching strtol on the
NUL-terminated copy made by val_from_hex). -/
def hexDigits : List Nat → Nat → Nat
  | [], acc => acc
  | c :: rest, acc =>
    match hexDigit? c with
    | some d => hexDigits rest (acc * 16 + d)
    | none => acc

/-- strtol base-16 digit part: an optional 0x / 0X prefix (consumed only when
a hex digit follows it), then hex digits. -/
def strtol16_core (cs : List Nat) : Nat :=
  match cs with
  | 48 :: x :: rest =>
    if (x == 120 || x == 88) && (hexDigit? (rest.headD 0)).isSome
    then hexDigits rest 0
    else hexDigits (48 :: x :: rest) 0
  | _ => hexDigits cs 0

/-- strtol(buf, NULL, 16): skip leading whitespace, optional sign, optional
0x prefix, hex digits. -/
def strtol16 (cs : List Nat) : Int :=
  let cs := cs.dropWhile isStrtolSpace
  match cs with
  | 45 :: rest => -(strtol16_core rest : Int)
  | 43 :: rest => (strtol16_core rest : Int)
  | _ => (strtol16_core cs : Int)

/-- val_from_hex(buf + off, dlen): lengths above 15 are rejected with 0,
otherwise the dlen bytes at offset off are parsed with strtol base 16. -/
def val_from_hex (buf : List Nat) (off : Nat) (dlen : Nat) : Int :=
  if dlen > 15 then 0 else strtol16 ((buf.drop off).take dlen)

/-- The 16-bit length-plus-checksum word proto_lchecksum encodes, step by
step as the C code computes it: the four masked values are accumulated into
a uint8_t (so the two high masks vanish mod 256 and the 0x00f0 mask enters
shifted, not as a nibble), reduced mod 16, negated as uint8_t, shifted into
the top nibble and truncated to 16 bits. -/
def proto_lchecksum_word (dlen : Nat) : Nat :=
  let lelen := dlen % 65536
  let c1 := (0 + (lelen &&& 0x000f)) % 256
  let c2 := (c1 + (lelen &&& 0x00f0)) % 256
  let c3 := (c2 + (lelen &&& 0x0f00)) % 256
  let c4 := (c3 + (lelen &&& 0xf000)) % 256
  let c5 := c4 % 16
  let c6 := (255 - c5 + 1) % 256
  (lelen ||| (c6 <<< 12)) % 65536

/-- The four ASCII characters proto_lchecksum writes as the length field. -/
def proto_lchecksum (dlen : Nat) : List Nat := hex4 (proto_lchecksum_word dlen)

/-- Sum of the four 4-bit nibbles of a 16-bit word. -/
def nibbleSum (w : Nat) : Nat :=
  w / 4096 % 16 + w / 256 % 16 + w / 16 % 16 + w % 16

/-- Length-checksum word as the specification describes it: sum the four
nibbles of the little-endian 16-bit length, reduce mod 16, negate in two's
complement within 4 bits, pack into the top nibble.  This definition follows
the spec's words and exists only to be compared with proto_lchecksum_word. -/
def lchecksum_spec_word (dlen : Nat) : Nat :=
  let lelen := dlen % 65536
  let s := (lelen % 16 + lelen / 16 % 16 + lelen / 256 % 16 + lelen / 4096 % 16) % 16
  lelen ||| (((16 - s) % 16) <<< 12)

/-- Sum of the checksummed bytes reduced mod 65536, as proto_checksum
accumulates it (bytes here are ASCII values below 0x80 in every frame the
driver builds, where signed and unsigned char agree). -/
def proto_checksum_sum (bytes : List Nat) : Nat :=
  (bytes.foldl (· + ·) 0) % 65536

/-- The value proto_checksum formats: (uint16_t)~sum + 1.  The cast binds
before the addition, so the result ranges over 1..65536 and equals 65536
exactly when the reduced sum is 0. -/
def proto_checksum_val (bytes : List Nat) : Nat :=
  (65535 - proto_checksum_sum bytes) + 1

/-- The four checksum characters that remain in a built frame: snprintf
"%04X" renders proto_checksum_val (five digits when it is 65536), five bytes
are copied out, and frame_make then overwrites the fifth byte with the end
marker, leaving the first four rendered characters. -/
def proto_checksum_field (bytes : List Nat) : List Nat :=
  (fmt04X (proto_checksum_val bytes)).take 4

/-- Command identifier table from liebert-gxe.h. -/
def gxe_cmds : List (List Nat) :=
  [ascii "0000", ascii "2A42", ascii "2A43", ascii "2A44", ascii "2A45",
   ascii "2A47", ascii "2A49", ascii "2A4F", ascii "2A50", ascii "2A51",
   ascii "2A80", ascii "2AE5", ascii "2AE6"]

def GXE_GET_ANALOG_DATA : Nat := 1
def GXE_GET_ONOFF_DATA : Nat := 2
def GXE_GET_WARNING_DATA : Nat := 3
def GXE_REMOTE_COMMAND : Nat := 4
def GXE_GET_SYS_PARAM : Nat := 5
def GXE_GET_VENDOR_INFO : Nat := 9

/-- frame_make: start marker, version, address, command id, length field
with embedded checksum, payload, payload checksum, end marker. -/
def frame_make (cmdi : Nat) (ver adr dptr : List Nat) : List Nat :=
  let body := ver.take 2 ++ adr.take 2 ++ gxe_cmds.getD cmdi [] ++
    proto_lchecksum dptr.length ++ dptr
  0x7e :: body ++ proto_checksum_field body ++ [0x0d]

/-- Return-code strings from liebert-gxe.h. -/
def rtn_vals : List String :=
  ["OK", "Bad VER", "Bad CHKSUM", "Bad LCHKSUM", "Invalid CID2",
   "Bad Command Format", "Bad Data"]

/-- RTN_TO_STR: the size_t cast sends negative codes above the table bound,
so only 0..6 hit the table. -/
def RTN_TO_STR (rtn : Int) : String :=
  if 0 ≤ rtn ∧ rtn < 7 then rtn_vals.getD rtn.toNat "Unknown RTN"
  else "Unknown RTN"

/-- Outcome of validate_ret, separating the three failure paths the code
logs distinctly. -/
inductive VRes
  | readFailed
  | shortRead
  | cmdFailed (msg : String)
  | ok (v : Int)
deriving DecidableEq

/-- validate_ret with its failure cause made visible: negative transport
result, short read, then the 2-hex-character return code at byte 7. -/
def validate_ret_r (buf : List Nat) (ret minlen : Int) : VRes :=
  if ret < 0 then .readFailed
  else if ret < minlen then .shortRead
  else
    let c := val_from_hex buf 7 2
    if c ≠ 0 then .cmdFailed (RTN_TO_STR c) else .ok c

/-- validate_ret as the int-returning C function: -1 on any failure; on
success it returns the value of the reassigned ret variable, which at that
point holds the decoded (zero) return code. -/
def validate_ret (buf : List Nat) (ret minlen : Int) : Int :=
  match validate_ret_r buf ret minlen with
  | .ok v => v
  | _ => -1

/-- C integer division by a positive constant: truncation toward zero. -/
def cdiv (a : Int) (b : Nat) : Int :=
  if 0 ≤ a then ((a.toNat / b : Nat) : Int) else -(((-a).toNat / b : Nat) : Int)

/-- C bitmask test dflag & mask for the two single-bit DATAFLAG masks,
on the two's-complement representation of the int. -/
def dataflag_test (d : Int) (mask : Nat) : Bool := Int.land d (mask : Int) ≠ 0

def DATAFLAG_WARN_MASK : Nat := 1
def DATAFLAG_ONOFF_MASK : Nat := 16

/-- enum gxe_poll_state. -/
inductive PollState
  | onoff
  | analog
  | warning
  | sysparam
deriving DecidableEq

/-- The pair of data-flag overrides the ONOFF and ANALOG handlers apply to
the poll state after validation, in source order: first bit 4 redirects to
ONOFF, then bit 0 redirects to WARNING (so bit 0 wins when both are set). -/
def dataflag_next (dflag : Int) (defaultNext : PollState) : PollState :=
  let st2 := if dataflag_test dflag DATAFLAG_ONOFF_MASK then PollState.onoff else defaultNext
  if dataflag_test dflag DATAFLAG_WARN_MASK then PollState.warning else st2

/-- Value of a fact passed to dstate_setinfo.  Fractional values the C code
computes in float and renders with a fixed format are modelled as exact
rationals. -/
inductive FactVal
  | s (v : String)
  | i (v : Int)
  | q (v : Rat)
deriving DecidableEq

/-- Observable outcome of one poll-phase handler invocation: the poll state
it leaves behind, whether it marked the data stale (else it called
dstate_dataok), the dstate_setinfo calls it made in order, and the status
flag set and alarm set after it ran (unchanged when it committed neither). -/
structure HandlerOut where
  poll_state : PollState
  dstale : Bool
  setinfos : List (String × FactVal)
  status : List String
  alarms : List String
deriving DecidableEq

/-- Warning name table gxe_warns, including the unnamed placeholder slots. -/
def gxe_warns : List (Option String) :=
  [none,
   some "Inverter Out-of-Sync",
   some "Unhealthy Main Circuit",
   some "Rectifier Failure",
   some "Inverter Failure",
   some "Unhealthy Bypass",
   some "Unhealthy Battery Voltage",
   none,
   none,
   some "Power Module Overheated",
   some "Unhealthy Fan",
   some "Netural Input Missing",
   some "Master Line Abnormally Turned-off",
   some "Charger Failure",
   some "Battery Discharge Declined",
   some "Backup Power Supply Failure",
   some "Ouput Overloaded",
   some "Ouput Shorted",
   some "Overload Timed-out",
   some "Unhealthy Parallel Machine Current",
   some "Parallel Machine Connection Failure",
   some "Parallel Machine Address Error",
   some "Unhealthy Internal Communication",
   some "System Overloaded",
   some "Battery Installed Backwards",
   some "Battery Not Found"]

/-- Raw warning codes the switch treats as an active alarm. -/
def warn_active (v : Int) : Bool := v = 1 || v = 2 || v = 3 || v = 0xf0

/-- One iteration of the warning handler loop: unnamed slots are skipped,
code 0 is inactive, codes 1, 2, 3, 0xF0 are active, anything else is
logged and ignored. -/
def warn_slot (buf : List Nat) (i : Nat) : Option String :=
  match gxe_warns.getD i none with
  | none => none
  | some name =>
    if warn_active (val_from_hex buf (15 + i * 2) 2) then some name else none

/-- The alarm_set calls the warning handler loop makes, in slot order. -/
def warning_alarms (buf : List Nat) : List String :=
  (List.range 26).filterMap (warn_slot buf)

/-- upsdrv_updateinfo_onoff.  On validation failure the poll state is pinned
to ONOFF and the data marked stale; on success the default successor ANALOG
may be overridden by the data-flag bits (bit 4 first, then bit 0), and the
status set is rebuilt from the power-supply and rectifier fields. -/
def upsdrv_updateinfo_onoff (preStatus preAlarms : List String)
    (ret : Int) (buf : List Nat) : HandlerOut :=
  if validate_ret buf ret (13 + 0x14) < 0 then
    ⟨.onoff, true, [], preStatus, preAlarms⟩
  else
    let st3 := dataflag_next (val_from_hex buf 13 2) .analog
    let pwrval := val_from_hex buf 15 2
    let rectval := val_from_hex buf 19 2
    let flags : List String :=
      if pwrval = 0x01 ∧ rectval = 0xe2 then ["OB"]
      else if pwrval = 0x01 then ["OL"]
      else if pwrval = 0x02 then ["OL BYPASS"]
      else []
    let bval := val_from_hex buf 21 2
    let inf1 : List (String × FactVal) :=
      if bval = 0xe0 then [("battery.charger.status", .s "resting")]
      else if bval = 0xe1 ∨ bval = 0xe2 then [("battery.charger.status", .s "charging")]
      else if bval = 0xe3 then [("battery.charger.status", .s "discharging")]
      else []
    let tval := val_from_hex buf 23 2
    let inf2 : List (String × FactVal) :=
      if tval = 0xe0 then [("ups.test.result", .s "In progress")]
      else if tval = 0xe1 then [("ups.test.result", .s "Idle")]
      else []
    ⟨st3, false, inf1 ++ inf2, flags, preAlarms⟩

/-- upsdrv_updateinfo_analog.  On validation failure only the stale mark is
set (the poll state is left as it was); on success the data-flag bits may
redirect the poll state, and the input-voltage consistency check may rewrite
the status set and force the WARNING phase. -/
def upsdrv_updateinfo_analog (prePhase : PollState) (preStatus preAlarms : List String)
    (ret : Int) (buf : List Nat) : HandlerOut :=
  if validate_ret buf ret (13 + 0x56) < 0 then
    ⟨prePhase, true, [], preStatus, preAlarms⟩
  else
    let st2 := dataflag_next (val_from_hex buf 13 2) prePhase
    let volt := cdiv (val_from_hex buf 15 4) 100
    let s1 := if volt = 0 ∧ preStatus.contains "OL" then (["OB"], PollState.warning)
      else (preStatus, st2)
    let s2 := if volt > 0 ∧ s1.1.contains "OB" then (["OL"], PollState.warning)
      else s1
    let infos : List (String × FactVal) :=
      [("input.voltage", .q ((val_from_hex buf 15 4 : Rat) / 100)),
       ("output.voltage", .q ((val_from_hex buf 27 4 : Rat) / 100)),
       ("output.current", .q ((val_from_hex buf 39 4 : Rat) / 100)),
       ("battery.voltage", .q ((val_from_hex buf 51 4 : Rat) / 100)),
       ("output.frequency", .q ((val_from_hex buf 55 4 : Rat) / 100)),
       ("input.frequency", .q ((val_from_hex buf 67 4 : Rat) / 100)),
       ("ups.realpower", .i (val_from_hex buf 79 4 * 10)),
       ("ups.power", .i (val_from_hex buf 83 4 * 10)),
       ("battery.runtime.low", .q ((val_from_hex buf 95 4 : Rat) / 100 * 60))]
    ⟨s2.2, false, infos, s2.1, preAlarms⟩

/-- upsdrv_updateinfo_sysparam.  On success the poll state moves to WARNING;
the bypass thresholds are published only when their enable flag decodes
to 1, the low one as the constant 120 and the high one as the nominal
voltage scaled by 1.15 (exact rational for the C float multiply). -/
def upsdrv_updateinfo_sysparam (prePhase : PollState) (preStatus preAlarms : List String)
    (ret : Int) (buf : List Nat) : HandlerOut :=
  if validate_ret buf ret (13 + 0x6a) < 0 then
    ⟨prePhase, true, [], preStatus, preAlarms⟩
  else
    let infos : List (String × FactVal) :=
      [("output.voltage.nominal", .i (val_from_hex buf 31 4)),
       ("output.frequency.nominal", .i (val_from_hex buf 35 4))] ++
      (if val_from_hex buf 47 4 = 1 then
        [("input.transfer.bypass.high", .q ((val_from_hex buf 31 4 : Rat) * (115 / 100)))]
       else []) ++
      (if val_from_hex buf 51 4 = 1 then
        [("input.transfer.bypass.low", .i 120)]
       else []) ++
      [("ups.test.interval", .i (val_from_hex buf 91 4 * 3 * 108000))]
    ⟨.warning, false, infos, preStatus, preAlarms⟩

/-- upsdrv_updateinfo_warning.  On validation failure the poll state is
pinned to WARNING and the data marked stale; on success the alarm set is
rebuilt from the warning table and the poll state moves to ONOFF. -/
def upsdrv_updateinfo_warning (preStatus preAlarms : List String)
    (ret : Int) (buf : List Nat) : HandlerOut :=
  if validate_ret buf ret (13 + 0x36) < 0 then
    ⟨.warning, true, [], preStatus, preAlarms⟩
  else
    ⟨.onoff, false, [], preStatus, warning_alarms buf⟩

/-- Minimum acceptable reply length each phase passes to validate_ret. -/
def phase_minlen : PollState → Int
  | .onoff => 13 + 0x14
  | .analog => 13 + 0x56
  | .warning => 13 + 0x36
  | .sysparam => 13 + 0x6a

/-- upsdrv_updateinfo: dispatch one poll tick to the current phase's
handler, given the transport result and reply buffer for that tick. -/
def upsdrv_updateinfo (phase : PollState) (preStatus preAlarms : List String)
    (ret : Int) (buf : List Nat) : HandlerOut :=
  match phase with
  | .onoff => upsdrv_updateinfo_onoff preStatus preAlarms ret buf
  | .analog => upsdrv_updateinfo_analog .analog preStatus preAlarms ret buf
  | .warning => upsdrv_updateinfo_warning preStatus preAlarms ret buf
  | .sysparam => upsdrv_updateinfo_sysparam .sysparam preStatus preAlarms ret buf

/-- ASCII tolower, as strcasecmp applies it byte by byte. -/
def tolowerB (c : Nat) : Nat := if 65 ≤ c ∧ c ≤ 90 then c + 32 else c

/-- strcasecmp equality of two byte strings. -/
def strcaseeq (a b : List Nat) : Bool := a.map tolowerB == b.map tolowerB

/-- The 4-character payload instcmd selects for a command name, none for an
unknown name. -/
def instcmd_data (cmdname : List Nat) : Option (List Nat) :=
  if strcaseeq cmdname (ascii "test.battery.start") then some (ascii "1002")
  else if strcaseeq cmdname (ascii "test.battery.stop") then some (ascii "1003")
  else if strcaseeq cmdname (ascii "load.on") then some (ascii "2001")
  else if strcaseeq cmdname (ascii "load.off") then some (ascii "2003")
  else none

/-- instcmd result codes STAT_INSTCMD_HANDLED / UNKNOWN / FAILED. -/
inductive InstcmdStat
  | handled
  | unknown
  | failed
deriving DecidableEq

/-- Observable outcome of instcmd: the reported status, the poll state after
the call, how many frame exchanges were attempted, and the command id and
payload used for those exchanges (none when no exchange happened). -/
structure InstcmdOut where
  stat : InstcmdStat
  poll_state : PollState
  tries : Nat
  sent : Option (Nat × List Nat)
deriving DecidableEq

/-- Index of the first attempt (among the first n) whose reply passes
validate_ret with minimum length 13, mirroring the retry loop. -/
def first_valid_attempt (attempts : Nat → Int × List Nat) (n : Nat) : Option Nat :=
  (List.range n).find? fun k =>
    !(validate_ret (attempts k).2 (attempts k).1 13 < 0)

/-- instcmd.  The attempts argument is the transport oracle: attempt k of
frame_send_and_recv returns the byte count and reply buffer (attempts k).
An unknown name is reported unknown with no exchange; otherwise up to
PROBE_RETRIES = 3 exchanges are made with command id GXE_REMOTE_COMMAND, the
first validated reply forces the SYSPARAM phase and reports handled, and
exhausting the attempts reports failed. -/
def instcmd (cmdname : List Nat) (prePhase : PollState)
    (attempts : Nat → Int × List Nat) : InstcmdOut :=
  match instcmd_data cmdname with
  | none => ⟨.unknown, prePhase, 0, none⟩
  | some data =>
    match first_valid_attempt attempts 3 with
    | some k => ⟨.handled, .sysparam, k + 1, some (GXE_REMOTE_COMMAND, data)⟩
    | none => ⟨.failed, prePhase, 3, some (GXE_REMOTE_COMMAND, data)⟩

/-- The sequence of byte writes substr_from_hex makes into its output
buffer, as (index, value) pairs in order.  The C capacity check compares
i/2 against len-1 in size_t, so with len = 0 it underflows to SIZE_MAX and
never bounds the loop; the indices i/2 reached here are far below that
wrapped bound, which the 0 < len conjunct models.  The last argument is
recursion fuel: the loop advances i by 2 while i < dlen, so dlen units of
fuel always outlast it and the fuel-exhausted branch coincides with the
loop-exit branch (both write the terminator at i/2). -/
def substr_writes_go (len : Nat) (dbuf : List Nat) (dlen : Nat) :
    Nat → Nat → List (Nat × Int)
  | i, 0 => [(i / 2, 0)]
  | i, fuel + 1 =>
    if i < dlen then
      let val := val_from_hex dbuf i 2
      if val = 0x20 then [(i / 2, 0)]
      else if 0 < len ∧ len - 1 < i / 2 then [(i / 2, 0)]
      else (i / 2, val) :: substr_writes_go len dbuf dlen (i + 2) fuel
    else [(i / 2, 0)]

/-- substr_from_hex(substr, len, dbuf, dlen), observed as its write trace. -/
def substr_from_hex (len : Nat) (dbuf : List Nat) (dlen : Nat) : List (Nat × Int) :=
  substr_writes_go len dbuf dlen 0 dlen

/-- A 9-byte reply prefix whose return-code field at byte 7 is "00". -/
def c2buf : List Nat := List.replicate 9 48

/-- A 9-byte reply prefix whose return-code field at byte 7 is "01". -/
def c2bufBadVer : List Nat :=
  (List.range 9).map fun i => if i = 8 then 49 else 48

/-- A 33-byte ONOFF reply with return code "00" and data flag "11": both
DATAFLAG bits set at once. -/
def c4buf : List Nat :=
  (List.range 33).map fun i => if i = 13 ∨ i = 14 then 49 else 48

/-- A 33-byte ONOFF reply with return code "00" and data flag "10": only
DATAFLAG bit 4 set. -/
def c4buf10 : List Nat :=
  (List.range 33).map fun i => if i = 13 then 49 else 48

/-- A 33-byte ONOFF reply with return code "00" and data flag "01": only
DATAFLAG bit 0 set. -/
def c4buf01 : List Nat :=
  (List.range 33).map fun i => if i = 14 then 49 else 48

/-- A 33-byte ONOFF reply with return code "00" and data flag "00". -/
def c4buf00 : List Nat := List.replicate 33 48

/-- A 99-byte ANALOG reply with return code "00", data flag "00" and
input-voltage field "0001": the field is nonzero but below 100, so the
integer division by 100 yields a voltage of 0. -/
def c6buf1 : List Nat :=
  (List.range 99).map fun i => if i = 18 then 49 else 48

/-- A 99-byte ANALOG reply with return code "00", data flag "00" and
input-voltage field "0000". -/
def c6buf0 : List Nat := List.replicate 99 48

/-- A 99-byte ANALOG reply with return code "00", data flag "00" and
input-voltage field "0100" (decimal 256, at least one volt). -/
def c6buf100 : List Nat :=
  (List.range 99).map fun i => if i = 16 then 49 else 48

/-- A 67-byte WARNING reply with return code "00", every warning slot "00"
except slot 3 (Rectifier Failure), which holds "02". -/
def c7buf : List Nat :=
  (List.range 67).map fun i => if i = 22 then 50 else 48

/-- A 119-byte SYSPARAM reply with return code "00", nominal voltage field
"0220" (544), both bypass-threshold enable flags "0001", all else "00". -/
def c10buf : List Nat :=
  (List.range 119).map fun i =>
    if i = 32 then 50 else if i = 33 then 50 else
    if i = 50 ∨ i = 54 then 49 else 48

/-- The payload of 520 bytes, each below 0x80, that drives the checksummed
byte sum of a remote-command frame to exactly 65536: 511 bytes of 127, one
byte of 13, eight bytes of 0. -/
def c3payload : List Nat :=
  List.replicate 511 127 ++ [13] ++ List.replicate 8 0

/-- The frame frame_make builds for that payload with version "21",
address "01" and command id GXE_REMOTE_COMMAND. -/
def c3frame : List Nat :=
  frame_make GXE_REMOTE_COMMAND (ascii "21") (ascii "01") c3payload

/-- C1: the claim says the length checksum sums all four nibbles of the
16-bit length, reduces mod 16 and negates, making the nibbles of the
encoded field re-sum to 0 mod 16 for payload lengths 0..110.  The code
accumulates the masked values in a uint8_t without shifting, so only the
low nibble survives the mod-16 reduction: at payload length 16 it emits
word 0x0010 (checksum nibble 0) where the spec algorithm gives 0xF010, and
the nibbles of the emitted field re-sum to 1 mod 16, not 0. -/
theorem C1_lchecksum_code_bug :
    proto_lchecksum_word 16 = 0x0010 ∧
    nibbleSum (proto_lchecksum_word 16) % 16 = 1 ∧
    lchecksum_spec_word 16 = 0xF010 ∧
    proto_lchecksum_word 16 ≠ lchecksum_spec_word 16 := by decide

/-- C2 counterexample: on a successfully validated reply with transport
byte count 20 and zero return code, validate_ret returns 0 (the decoded
return code), not the byte count 20 the claim asserts. -/
theorem C2_validate_ret_counterexample :
    validate_ret_r c2buf 20 13 = .ok 0 ∧
    validate_ret c2buf 20 13 = 0 ∧
    validate_ret c2buf 20 13 ≠ 20 := by decide

/-- C2 amended: validate_ret rejects a negative transport result, rejects a
count below the minimum length, fails on a nonzero return code at byte 7
(mapping codes 1..6 to their table entries and any code 7 or higher to
"Unknown RTN"), and returns 0 — not the byte count — on success. -/
theorem C2_validate_ret_amended :
    (∀ (buf : List Nat) (ret minlen : Int), ret < 0 →
      validate_ret_r buf ret minlen = .readFailed ∧ validate_ret buf ret minlen = -1) ∧
    (∀ (buf : List Nat) (ret minlen : Int), 0 ≤ ret → ret < minlen →
      validate_ret_r buf ret minlen = .shortRead ∧ validate_ret buf ret minlen = -1) ∧
    (∀ (buf : List Nat) (ret minlen : Int), 0 ≤ ret → minlen ≤ ret →
      val_from_hex buf 7 2 = 0 → validate_ret buf ret minlen = 0) ∧
    (∀ (buf : List Nat) (ret minlen : Int), 0 ≤ ret → minlen ≤ ret →
      val_from_hex buf 7 2 ≠ 0 →
      validate_ret_r buf ret minlen = .cmdFailed (RTN_TO_STR (val_from_hex buf 7 2)) ∧
      validate_ret buf ret minlen = -1) ∧
    (RTN_TO_STR 1 = "Bad VER" ∧ RTN_TO_STR 2 = "Bad CHKSUM" ∧
     RTN_TO_STR 3 = "Bad LCHKSUM" ∧ RTN_TO_STR 4 = "Invalid CID2" ∧
     RTN_TO_STR 5 = "Bad Command Format" ∧ RTN_TO_STR 6 = "Bad Data") ∧
    (∀ c : Int, 7 ≤ c → RTN_TO_STR c = "Unknown RTN") := by
  refine ⟨?_, ?_, ?_, ?_, by decide, ?_⟩
  · intro buf ret minlen h
    simp [validate_ret_r, validate_ret, h]
  · intro buf ret minlen h0 hm
    have h1 : ¬ ret < 0 := by omega
    simp [validate_ret_r, validate_ret, h1, hm]
  · intro buf ret minlen h0 hm hc
    have h1 : ¬ ret < 0 := by omega
    have h2 : ¬ ret < minlen := by omega
    simp [validate_ret_r, validate_ret, h1, h2, hc]
  · intro buf ret minlen h0 hm hc
    have h1 : ¬ ret < 0 := by omega
    have h2 : ¬ ret < minlen := by omega
    simp [validate_ret_r, validate_ret, h1, h2, hc]
  · intro c hc
    have h : ¬ (0 ≤ c ∧ c < 7) := by omega
    simp [RTN_TO_STR, h]

/-- C2 witness: the amended theorem applied at concrete replies covering
all its cases. -/
theorem C2_validate_ret_witness :
    (validate_ret_r [] (-1) 13 = .readFailed ∧ validate_ret [] (-1) 13 = -1) ∧
    (validate_ret_r [] 5 13 = .shortRead ∧ validate_ret [] 5 13 = -1) ∧
    validate_ret c2buf 20 13 = 0 ∧
    validate_ret_r c2bufBadVer 20 13 = .cmdFailed "Bad VER" ∧
    RTN_TO_STR 9 = "Unknown RTN" := by
  refine ⟨C2_validate_ret_amended.1 [] (-1) 13 (by decide),
          C2_validate_ret_amended.2.1 [] 5 13 (by decide) (by decide),
          C2_validate_ret_amended.2.2.1 c2buf 20 13 (by decide) (by decide) (by decide),
          ?_,
          C2_validate_ret_amended.2.2.2.2.2 9 (by decide)⟩
  have h := (C2_validate_ret_amended.2.2.2.1 c2bufBadVer 20 13
    (by decide) (by decide) (by decide)).1
  rw [h]
  decide

set_option maxRecDepth 100000 in
/-- C3: the claim says the payload checksum of a built frame is the 16-bit
two's-complement negation of the checksummed byte sum, so the sum plus the
decoded checksum is 0 mod 65536 for every payload.  The cast in
(uint16_t)~sum + 1 binds before the addition, so when the reduced sum is 0
the formatted value is 65536, %04X renders five digits, and the frame keeps
"1000": for this 520-byte payload (every byte below 0x80, where signed and
unsigned char agree) the checksummed sum is exactly 65536, the frame field
is "1000", and sum plus decoded checksum is 4096 mod 65536, not 0. -/
theorem C3_checksum_code_bug :
    proto_checksum_sum ((c3frame.drop 1).take (c3payload.length + 12)) = 0 ∧
    (c3frame.drop (13 + c3payload.length)).take 4 = ascii "1000" ∧
    val_from_hex c3frame (13 + c3payload.length) 4 = 4096 ∧
    (proto_checksum_sum ((c3frame.drop 1).take (c3payload.length + 12)) +
      (val_from_hex c3frame (13 + c3payload.length) 4).toNat) % 65536 = 4096 := by
  decide

/-- Helper: a zero data flag leaves the default successor in place. -/
theorem dataflag_next_zero (st : PollState) : dataflag_next 0 st = st := by
  have h1 : dataflag_test 0 DATAFLAG_ONOFF_MASK = false := by decide
  have h2 : dataflag_test 0 DATAFLAG_WARN_MASK = false := by decide
  simp [dataflag_next, h1, h2]

/-- Helper: data-flag bit 0 forces WARNING whatever the default is. -/
theorem dataflag_next_warn (d : Int) (st : PollState)
    (h : dataflag_test d DATAFLAG_WARN_MASK = true) :
    dataflag_next d st = .warning := by
  simp [dataflag_next, h]

/-- Helper: data-flag bit 4 forces ONOFF when bit 0 is clear. -/
theorem dataflag_next_onoff (d : Int) (st : PollState)
    (h1 : dataflag_test d DATAFLAG_ONOFF_MASK = true)
    (h2 : dataflag_test d DATAFLAG_WARN_MASK = false) :
    dataflag_next d st = .onoff := by
  simp [dataflag_next, h1, h2]

/-- C4 counterexample: an ONOFF reply whose data flag is 0x11 has bit 4
set, yet the next phase is WARNING, not the ONOFF self-loop the claim
demands, because the bit-0 check runs after the bit-4 check. -/
theorem C4_onoff_dataflag_counterexample :
    validate_ret c4buf 33 33 = 0 ∧
    dataflag_test (val_from_hex c4buf 13 2) DATAFLAG_ONOFF_MASK = true ∧
    (upsdrv_updateinfo .onoff [] [] 33 c4buf).poll_state = .warning ∧
    (upsdrv_updateinfo .onoff [] [] 33 c4buf).poll_state ≠ .onoff := by decide

/-- C4 amended: after a successfully validated ONOFF reply, a zero data
flag yields ANALOG, bit 0 yields WARNING regardless of the rest, and bit 4
yields the ONOFF self-loop only when bit 0 is clear (bit 0 wins when both
are set). -/
theorem C4_onoff_dataflag (preSt preAl : List String) (ret : Int) (buf : List Nat)
    (hv : ¬ validate_ret buf ret (13 + 0x14) < 0) :
    (val_from_hex buf 13 2 = 0 →
      (upsdrv_updateinfo .onoff preSt preAl ret buf).poll_state = .analog) ∧
    (dataflag_test (val_from_hex buf 13 2) DATAFLAG_WARN_MASK = true →
      (upsdrv_updateinfo .onoff preSt preAl ret buf).poll_state = .warning) ∧
    (dataflag_test (val_from_hex buf 13 2) DATAFLAG_ONOFF_MASK = true →
      dataflag_test (val_from_hex buf 13 2) DATAFLAG_WARN_MASK = false →
      (upsdrv_updateinfo .onoff preSt preAl ret buf).poll_state = .onoff) := by
  have hv33 : ¬ validate_ret buf ret 33 < 0 := by simpa using hv
  have hps : (upsdrv_updateinfo .onoff preSt preAl ret buf).poll_state
      = dataflag_next (val_from_hex buf 13 2) .analog := by
    simp [upsdrv_updateinfo, upsdrv_updateinfo_onoff, hv33]
  refine ⟨?_, ?_, ?_⟩
  · intro h
    rw [hps, h, dataflag_next_zero]
  · intro h
    rw [hps, dataflag_next_warn _ _ h]
  · intro h1 h2
    rw [hps, dataflag_next_onoff _ _ h1 h2]

/-- C4 witness: the amended theorem at concrete ONOFF replies with data
flags 0x00, 0x01 and 0x10. -/
theorem C4_onoff_dataflag_witness :
    (upsdrv_updateinfo .onoff [] [] 33 c4buf00).poll_state = .analog ∧
    (upsdrv_updateinfo .onoff [] [] 33 c4buf01).poll_state = .warning ∧
    (upsdrv_updateinfo .onoff [] [] 33 c4buf10).poll_state = .onoff := by
  refine ⟨(C4_onoff_dataflag [] [] 33 c4buf00 (by decide)).1 (by decide),
          (C4_onoff_dataflag [] [] 33 c4buf01 (by decide)).2.1 (by decide),
          (C4_onoff_dataflag [] [] 33 c4buf10 (by decide)).2.2 (by decide) (by decide)⟩

/-- Helper: C truncating division by 100 is positive for values of at
least 100. -/
theorem cdiv_pos_of_le (a : Int) (h : 100 ≤ a) : 0 < cdiv a 100 := by
  have h0 : 0 ≤ a := by omega
  have h1 : 100 ≤ a.toNat := by omega
  have h2 : 0 < a.toNat / 100 := Nat.div_pos h1 (by norm_num)
  unfold cdiv
  rw [if_pos h0]
  exact_mod_cast h2

/-- C6 counterexample: an ANALOG reply whose input-voltage field decodes to
the nonzero value 1 while the status set holds "OB" leaves the status at
"OB" and the phase at ANALOG, because the integer division by 100 floors
the field to a voltage of 0; the claim demands a rewrite to "OL" and a
forced WARNING phase for every nonzero field. -/
theorem C6_analog_voltage_counterexample :
    validate_ret c6buf1 99 99 = 0 ∧
    val_from_hex c6buf1 15 4 = 1 ∧
    (upsdrv_updateinfo .analog ["OB"] [] 99 c6buf1).status = ["OB"] ∧
    (upsdrv_updateinfo .analog ["OB"] [] 99 c6buf1).poll_state = .analog := by decide

/-- C6 amended: after a successfully validated ANALOG reply, an
input-voltage field of 0 while "OL" is in the status set rewrites the
status to "OB" and forces WARNING, and a field of at least 100 (one volt
after the division by 100) while "OB" is in the status set rewrites the
status to "OL" and forces WARNING. -/
theorem C6_analog_voltage (preSt preAl : List String) (ret : Int) (buf : List Nat)
    (hv : ¬ validate_ret buf ret (13 + 0x56) < 0) :
    (val_from_hex buf 15 4 = 0 → preSt.contains "OL" = true →
      (upsdrv_updateinfo .analog preSt preAl ret buf).status = ["OB"] ∧
      (upsdrv_updateinfo .analog preSt preAl ret buf).poll_state = .warning) ∧
    (100 ≤ val_from_hex buf 15 4 → preSt.contains "OB" = true →
      (upsdrv_updateinfo .analog preSt preAl ret buf).status = ["OL"] ∧
      (upsdrv_updateinfo .analog preSt preAl ret buf).poll_state = .warning) := by
  have hv99 : ¬ validate_ret buf ret 99 < 0 := by simpa using hv
  constructor
  · intro h0 hOL
    have hOLm : "OL" ∈ preSt := by simpa using hOL
    have hvolt : cdiv (val_from_hex buf 15 4) 100 = 0 := by
      rw [h0]; decide
    simp [upsdrv_updateinfo, upsdrv_updateinfo_analog, hv99, hvolt, hOLm]
  · intro h100 hOB
    have hOBm : "OB" ∈ preSt := by simpa using hOB
    have hpos : 0 < cdiv (val_from_hex buf 15 4) 100 := cdiv_pos_of_le _ h100
    have hnz : ¬ cdiv (val_from_hex buf 15 4) 100 = 0 := by omega
    simp [upsdrv_updateinfo, upsdrv_updateinfo_analog, hv99, hnz, hpos, hOBm]

/-- C6 witness: the amended theorem at a zero-voltage reply seen on-line
and at a 256-value (2.56 V) reply seen on-battery. -/
theorem C6_analog_voltage_witness :
    ((upsdrv_updateinfo .analog ["OL"] [] 99 c6buf0).status = ["OB"] ∧
     (upsdrv_updateinfo .analog ["OL"] [] 99 c6buf0).poll_state = .warning) ∧
    ((upsdrv_updateinfo .analog ["OB"] [] 99 c6buf100).status = ["OL"] ∧
     (upsdrv_updateinfo .analog ["OB"] [] 99 c6buf100).poll_state = .warning) := by
  exact ⟨(C6_analog_voltage ["OL"] [] 99 c6buf0 (by decide)).1 (by decide) (by decide),
         (C6_analog_voltage ["OB"] [] 99 c6buf100 (by decide)).2 (by decide) (by decide)⟩

/-- Helper: validate_ret succeeds with result 0 whenever the transport
count reaches the minimum and the return-code field decodes to 0. -/
theorem validate_ret_ok (buf : List Nat) (ret minlen : Int)
    (h0 : 0 ≤ ret) (hm : minlen ≤ ret) (hc : val_from_hex buf 7 2 = 0) :
    validate_ret buf ret minlen = 0 := by
  have h1 : ¬ ret < 0 := by omega
  have h2 : ¬ ret < minlen := by omega
  simp [validate_ret, validate_ret_r, h1, h2, hc]

/-- C5: instcmd maps "load.on" to payload "2001" under command id
GXE_REMOTE_COMMAND ("2A45"); a first reply with zero return code and
length at least 13 yields handled after one exchange and forces the
SYSPARAM phase; three failed attempts yield failed; and any name matching
none of the four known commands (case-insensitively) yields unknown with
no exchange attempted. -/
theorem C5_instcmd :
    instcmd_data (ascii "load.on") = some (ascii "2001") ∧
    gxe_cmds.getD GXE_REMOTE_COMMAND [] = ascii "2A45" ∧
    (∀ (prePhase : PollState) (attempts : Nat → Int × List Nat),
      13 ≤ (attempts 0).1 → val_from_hex (attempts 0).2 7 2 = 0 →
      instcmd (ascii "load.on") prePhase attempts =
        ⟨.handled, .sysparam, 1, some (GXE_REMOTE_COMMAND, ascii "2001")⟩) ∧
    (∀ (prePhase : PollState) (attempts : Nat → Int × List Nat),
      (∀ k, k < 3 → validate_ret (attempts k).2 (attempts k).1 13 < 0) →
      (instcmd (ascii "load.on") prePhase attempts).stat = .failed) ∧
    (∀ (name : List Nat) (prePhase : PollState) (attempts : Nat → Int × List Nat),
      strcaseeq name (ascii "test.battery.start") = false →
      strcaseeq name (ascii "test.battery.stop") = false →
      strcaseeq name (ascii "load.on") = false →
      strcaseeq name (ascii "load.off") = false →
      instcmd name prePhase attempts = ⟨.unknown, prePhase, 0, none⟩) := by
  have hdata : instcmd_data (ascii "load.on") = some (ascii "2001") := by decide
  refine ⟨hdata, by decide, ?_, ?_, ?_⟩
  · intro prePhase attempts h13 hc
    have hval : validate_ret (attempts 0).2 (attempts 0).1 13 = 0 :=
      validate_ret_ok _ _ _ (by omega) h13 hc
    have hr3 : List.range 3 = [0, 1, 2] := by decide
    have hfind : first_valid_attempt attempts 3 = some 0 := by
      rw [first_valid_attempt, hr3]
      simp [List.find?, hval]
    simp [instcmd, hdata, hfind]
  · intro prePhase attempts hall
    have hfind : first_valid_attempt attempts 3 = none := by
      rw [first_valid_attempt]
      apply List.find?_eq_none.mpr
      intro k hk
      have hk3 : k < 3 := List.mem_range.mp hk
      simp [hall k hk3]
    simp [instcmd, hdata, hfind]
  · intro name prePhase attempts h1 h2 h3 h4
    simp [instcmd, instcmd_data, h1, h2, h3, h4]

/-- C5 witness: the theorem at a constant successful transport, a constant
failing transport, and an unknown command name. -/
theorem C5_instcmd_witness :
    instcmd (ascii "load.on") .onoff (fun _ => (20, c2buf)) =
      ⟨.handled, .sysparam, 1, some (GXE_REMOTE_COMMAND, ascii "2001")⟩ ∧
    (instcmd (ascii "load.on") .onoff (fun _ => (-1, []))).stat = .failed ∧
    instcmd (ascii "beeper.toggle") .onoff (fun _ => (20, c2buf)) =
      ⟨.unknown, .onoff, 0, none⟩ := by
  refine ⟨C5_instcmd.2.2.1 .onoff _ (by decide) (by decide),
          C5_instcmd.2.2.2.1 .onoff _ (fun k _ => by decide),
          C5_instcmd.2.2.2.2 (ascii "beeper.toggle") .onoff _
            (by decide) (by decide) (by decide) (by decide)⟩

/-- Helper: a warning table slot yields an alarm name exactly when the slot
is named and its 2-character field decodes to an active code. -/
theorem warn_slot_eq_some (buf : List Nat) (i : Nat) (name : String) :
    warn_slot buf i = some name ↔
      gxe_warns.getD i none = some name ∧
      warn_active (val_from_hex buf (15 + i * 2) 2) = true := by
  rcases hw : gxe_warns.getD i none with _ | nm
  · simp only [warn_slot]
    rw [hw]
    simp [hw]
  · simp only [warn_slot]
    rw [hw]
    by_cases ha : warn_active (val_from_hex buf (15 + i * 2) 2) = true
    · simp [hw, ha]
    · simp [hw, ha]

/-- Helper: membership in the warning handler's alarm list, characterized
over the 26 table slots. -/
theorem warning_alarms_mem (buf : List Nat) (name : String) :
    name ∈ warning_alarms buf ↔
      ∃ i, i < 26 ∧ gxe_warns.getD i none = some name ∧
        warn_active (val_from_hex buf (15 + i * 2) 2) = true := by
  rw [warning_alarms, List.mem_filterMap]
  constructor
  · rintro ⟨i, hi, hf⟩
    obtain ⟨h1, h2⟩ := (warn_slot_eq_some buf i name).mp hf
    exact ⟨i, List.mem_range.mp hi, h1, h2⟩
  · rintro ⟨i, hi, h1, h2⟩
    exact ⟨i, List.mem_range.mpr hi, (warn_slot_eq_some buf i name).mpr ⟨h1, h2⟩⟩

/-- C7: after a successfully validated WARNING reply the alarm set contains
exactly the named table entries whose 2-hex-character slot decodes to 0x01,
0x02, 0x03 or 0xF0 (slots decoding to 0 or to any other value, and the
unnamed placeholder slots, contribute nothing); in particular a reply with
0x02 at the Rectifier Failure slot and 0x00 elsewhere yields exactly that
one alarm. -/
theorem C7_warning_alarms :
    (∀ (preSt preAl : List String) (ret : Int) (buf : List Nat),
      ¬ validate_ret buf ret (13 + 0x36) < 0 →
      ∀ name, name ∈ (upsdrv_updateinfo .warning preSt preAl ret buf).alarms ↔
        ∃ i, i < 26 ∧ gxe_warns.getD i none = some name ∧
          warn_active (val_from_hex buf (15 + i * 2) 2) = true) ∧
    (upsdrv_updateinfo .warning [] [] 67 c7buf).alarms = ["Rectifier Failure"] := by
  constructor
  · intro preSt preAl ret buf hv name
    have hv67 : ¬ validate_ret buf ret 67 < 0 := by simpa using hv
    have halarm : (upsdrv_updateinfo .warning preSt preAl ret buf).alarms
        = warning_alarms buf := by
      simp [upsdrv_updateinfo, upsdrv_updateinfo_warning, hv67]
    rw [halarm]
    exact warning_alarms_mem buf name
  · decide

/-- C7 witness: the characterization applied to the concrete reply with
0x02 at slot 3, at the name Rectifier Failure. -/
theorem C7_warning_alarms_witness :
    "Rectifier Failure" ∈ (upsdrv_updateinfo .warning [] [] 67 c7buf).alarms := by
  exact (C7_warning_alarms.1 [] [] 67 c7buf (by decide) "Rectifier Failure").mpr
    ⟨3, by decide, by decide, by decide⟩

/-- C8: whenever a phase's reply fails validation, the poll state stays at
that phase, the fact batch is marked stale, and no facts are published: no
setinfo call is made and the status and alarm sets are left untouched. -/
theorem C8_validation_failure (phase : PollState) (preSt preAl : List String)
    (ret : Int) (buf : List Nat)
    (hv : validate_ret buf ret (phase_minlen phase) < 0) :
    (upsdrv_updateinfo phase preSt preAl ret buf).poll_state = phase ∧
    (upsdrv_updateinfo phase preSt preAl ret buf).dstale = true ∧
    (upsdrv_updateinfo phase preSt preAl ret buf).setinfos = [] ∧
    (upsdrv_updateinfo phase preSt preAl ret buf).status = preSt ∧
    (upsdrv_updateinfo phase preSt preAl ret buf).alarms = preAl := by
  cases phase <;>
    simp_all [upsdrv_updateinfo, upsdrv_updateinfo_onoff, upsdrv_updateinfo_analog,
      upsdrv_updateinfo_warning, upsdrv_updateinfo_sysparam, phase_minlen]

/-- C8 witness: the theorem at each phase with a transport error. -/
theorem C8_validation_failure_witness :
    ((upsdrv_updateinfo .onoff [] [] (-1) []).poll_state = .onoff ∧
     (upsdrv_updateinfo .onoff [] [] (-1) []).dstale = true ∧
     (upsdrv_updateinfo .onoff [] [] (-1) []).setinfos = []) ∧
    ((upsdrv_updateinfo .analog [] [] (-1) []).poll_state = .analog ∧
     (upsdrv_updateinfo .sysparam [] [] (-1) []).poll_state = .sysparam ∧
     (upsdrv_updateinfo .warning [] [] (-1) []).poll_state = .warning) := by
  obtain ⟨a1, a2, a3, _, _⟩ := C8_validation_failure .onoff [] [] (-1) [] (by decide)
  obtain ⟨b1, _, _, _, _⟩ := C8_validation_failure .analog [] [] (-1) [] (by decide)
  obtain ⟨c1, _, _, _, _⟩ := C8_validation_failure .sysparam [] [] (-1) [] (by decide)
  obtain ⟨d1, _, _, _, _⟩ := C8_validation_failure .warning [] [] (-1) [] (by decide)
  exact ⟨⟨a1, a2, a3⟩, b1, c1, d1⟩

/-- C9: the claim says substr_from_hex stops at the input length or at
capacity minus one, whichever is smaller.  For capacity 2 and the 4-hex
input "4142" the code writes two data bytes (indices 0 and 1) and the NUL
at index 2 — one byte past the last valid index — instead of stopping
after capacity-minus-one bytes; with capacity 0 the size_t underflow in
the bound check disables the bound entirely.  The space terminator and the
final NUL write behave as claimed ("41204142" stops at the space). -/
theorem C9_substr_code_bug :
    substr_from_hex 2 (ascii "4142") 4 = [(0, 65), (1, 66), (2, 0)] ∧
    substr_from_hex 64 (ascii "41204142") 8 = [(0, 65), (1, 0)] ∧
    substr_from_hex 0 (ascii "4142") 4 = [(0, 65), (1, 66), (2, 0)] := by decide

/-- C10: after a successfully validated SYSPARAM reply whose bypass-low
enable field decodes to 1, the published low bypass threshold is the
constant 120 (and no other value is ever published under that name),
while the high threshold, when its enable field decodes to 1, is the
decoded nominal voltage times 1.15. -/
theorem C10_sysparam_bypass (preSt preAl : List String) (ret : Int) (buf : List Nat)
    (hv : ¬ validate_ret buf ret (13 + 0x6a) < 0) :
    (val_from_hex buf 51 4 = 1 →
      ("input.transfer.bypass.low", FactVal.i 120) ∈
        (upsdrv_updateinfo .sysparam preSt preAl ret buf).setinfos) ∧
    (∀ v, ("input.transfer.bypass.low", v) ∈
        (upsdrv_updateinfo .sysparam preSt preAl ret buf).setinfos →
      v = FactVal.i 120) ∧
    (val_from_hex buf 47 4 = 1 →
      ("input.transfer.bypass.high",
        FactVal.q ((val_from_hex buf 31 4 : Rat) * (115 / 100))) ∈
        (upsdrv_updateinfo .sysparam preSt preAl ret buf).setinfos) := by
  have hv119 : ¬ validate_ret buf ret 119 < 0 := by simpa using hv
  refine ⟨?_, ?_, ?_⟩
  · intro h51
    simp [upsdrv_updateinfo, upsdrv_updateinfo_sysparam, hv119, h51]
  · intro v hmem
    simp [upsdrv_updateinfo, upsdrv_updateinfo_sysparam, hv119] at hmem
    by_cases h47 : val_from_hex buf 47 4 = 1 <;>
      by_cases h51 : val_from_hex buf 51 4 = 1 <;>
      simp [h47, h51] at hmem <;>
      tauto
  · intro h47
    simp [upsdrv_updateinfo, upsdrv_updateinfo_sysparam, hv119, h47]

/-- C10 witness: the theorem at a concrete SYSPARAM reply with both enable
flags 1 and nominal voltage field "0220" (544). -/
theorem C10_sysparam_bypass_witness :
    ("input.transfer.bypass.low", FactVal.i 120) ∈
      (upsdrv_updateinfo .sysparam [] [] 119 c10buf).setinfos ∧
    ("input.transfer.bypass.high",
      FactVal.q ((val_from_hex c10buf 31 4 : Rat) * (115 / 100))) ∈
      (upsdrv_updateinfo .sysparam [] [] 119 c10buf).setinfos := by
  exact ⟨(C10_sysparam_bypass [] [] 119 c10buf (by decide)).1 (by decide),
         (C10_sysparam_bypass [] [] 119 c10buf (by decide)).2.2 (by decide)⟩
